import Mathlib

/-!
Verification of the bitflag enumeration families declared by the
types-for-megascript repository: `MetaDataToLoad`, `ProductLoadType`,
`ProductVariantLoadType`, `OrderLoadType` and `ProductGetFlags`.

TypeScript enum initializers evaluate over JavaScript 32-bit integer
semantics; every initializer in these files is built from nonnegative
shifted literals, `|`, and the single expression `~0`, whose value is the
integer `-1`.  We model enum member values as `Int`, with `|` as `Int.lor`,
`&` as `Int.land` (two's-complement bitwise operations) and `~0` as
`Int.lnot 0 = -1`, which agrees with the 32-bit evaluation on every value
occurring in these declarations.

Each enum is transcribed member by member from its declaration file, in
declaration order, into its own namespace (one namespace per source file,
since the repository keeps duplicate copies of several enums).
-/

instance : OrOp Int := ⟨Int.lor⟩

instance : AndOp Int := ⟨Int.land⟩

/-- Modelled from the spec: the host engine's flag-subset test, absent from
the repository (which is declarations only).  The spec defines
`Contains(set, flag)` as returning true iff `(set & flag) == flag`. -/
def Contains (s f : Int) : Bool := (s &&& f) == f

/-- Modelled from the spec: the host-side combination operation, absent from
the repository.  The spec defines `Combine` as the bitwise OR of any number
of flags; the empty combination is `0`. -/
def Combine (flags : List Int) : Int := flags.foldl (fun a b => a ||| b) 0

/-- Values of all members of a family, from its name-value member table. -/
def namedValues (ms : List (String × Int)) : List Int := ms.map Prod.snd

/-- Values of the members of a family other than the sentinels (members
whose declared name is `None` or `All`). -/
def nonSentinelValues (ms : List (String × Int)) : List Int :=
  (ms.filter (fun p => !(p.1 == "None" || p.1 == "All"))).map Prod.snd

/-- Every two distinct entries of the list share no bit. -/
def pairwiseDisjoint : List Int → Bool
  | [] => true
  | x :: xs => xs.all (fun y => (x &&& y) == 0) && pairwiseDisjoint xs

/-- The value has exactly one bit set. -/
def isSingleBit (v : Int) : Bool := (v != 0) && ((v &&& (v - 1)) == 0)

namespace UnnamedFiles

/-! Transcription of `declare enum MetaDataToLoad` from the unnamed v1
declaration file (src/unnamed/part_006, lines 165-261). -/

namespace MetaDataToLoad

def Job : Int := 1 <<< 1

def Customer : Int := Job ||| (1 <<< 2)

def TemplateTexts : Int := Job ||| (1 <<< 13)

def CustomerAttributes : Int := Job ||| (1 <<< 3)

def CheckoutAttributes : Int := Job ||| CustomerAttributes ||| TemplateTexts ||| (1 <<< 4)

def OrderProductVariant : Int := Job ||| (1 <<< 5)

def SpecificationAttributes : Int := Job ||| OrderProductVariant ||| (1 <<< 6)

def Tags : Int := Job ||| OrderProductVariant ||| (1 <<< 7)

def StatusHistory : Int := Job ||| OrderProductVariant ||| (1 <<< 8)

def Attributes : Int := Job ||| OrderProductVariant ||| (1 <<< 9)

def OrderBillingAddress : Int := Job ||| (1 <<< 10)

def OrderShippingAddress : Int := Job ||| (1 <<< 11)

def OrderShippingInfo : Int := Job ||| (1 <<< 12)

def All : Int := Job ||| Customer ||| CustomerAttributes ||| CheckoutAttributes
  ||| OrderProductVariant ||| SpecificationAttributes ||| Tags ||| StatusHistory
  ||| Attributes ||| OrderBillingAddress ||| OrderShippingAddress
  ||| OrderShippingInfo ||| TemplateTexts

/-- The members of the enum, in declaration order. -/
def members : List (String × Int) :=
  [("Job", Job), ("Customer", Customer), ("TemplateTexts", TemplateTexts),
   ("CustomerAttributes", CustomerAttributes),
   ("CheckoutAttributes", CheckoutAttributes),
   ("OrderProductVariant", OrderProductVariant),
   ("SpecificationAttributes", SpecificationAttributes),
   ("Tags", Tags), ("StatusHistory", StatusHistory),
   ("Attributes", Attributes), ("OrderBillingAddress", OrderBillingAddress),
   ("OrderShippingAddress", OrderShippingAddress),
   ("OrderShippingInfo", OrderShippingInfo), ("All", All)]

/-- The composite members as declared in the source: for each, its value, the
list of named dependency flags appearing in its initializer, and the index of
the one fresh shifted bit appearing in its initializer. -/
def composites : List (Int × List Int × Nat) :=
  [(Customer, [Job], 2),
   (TemplateTexts, [Job], 13),
   (CustomerAttributes, [Job], 3),
   (CheckoutAttributes, [Job, CustomerAttributes, TemplateTexts], 4),
   (OrderProductVariant, [Job], 5),
   (SpecificationAttributes, [Job, OrderProductVariant], 6),
   (Tags, [Job, OrderProductVariant], 7),
   (StatusHistory, [Job, OrderProductVariant], 8),
   (Attributes, [Job, OrderProductVariant], 9),
   (OrderBillingAddress, [Job], 10),
   (OrderShippingAddress, [Job], 11),
   (OrderShippingInfo, [Job], 12)]

/-- The fresh bit index introduced by each named non-sentinel flag:
bit 1 for the base flag `Job`, then the fresh bit of each composite. -/
def freshBits : List Nat := 1 :: composites.map (fun c => c.2.2)

/-- Decimal value written in the source comment next to `CheckoutAttributes`. -/
def commentCheckoutAttributes : Int := 8210

/-- Decimal value written in the source comment next to `OrderBillingAddress`. -/
def commentOrderBillingAddress : Int := 1058

/-- Decimal value written in the source comment next to `OrderShippingAddress`. -/
def commentOrderShippingAddress : Int := 2082

/-- Decimal value written in the source comment next to `OrderShippingInfo`. -/
def commentOrderShippingInfo : Int := 4130

end MetaDataToLoad

end UnnamedFiles

namespace V1ProductSearch

/-! Transcriptions from src/v1/RunObject/ProductSearch.d.ts. -/

namespace ProductLoadType

def All : Int := Int.lnot 0

def None : Int := 0

def Url : Int := 1 <<< 1

def Categories : Int := 1 <<< 2

def CrossSells : Int := 1 <<< 3

def RelatedProducts : Int := 1 <<< 4

def PrintLocation : Int := 1 <<< 5

def Pictures : Int := 1 <<< 6

def SpecificationAttributes : Int := 1 <<< 7

def Tags : Int := 1 <<< 8

/-- The members of the enum, in declaration order. -/
def members : List (String × Int) :=
  [("All", All), ("None", None), ("Url", Url), ("Categories", Categories),
   ("CrossSells", CrossSells), ("RelatedProducts", RelatedProducts),
   ("PrintLocation", PrintLocation), ("Pictures", Pictures),
   ("SpecificationAttributes", SpecificationAttributes), ("Tags", Tags)]

end ProductLoadType

namespace ProductVariantLoadType

def All : Int := Int.lnot 0

def None : Int := 0

def ExternalIds : Int := 1 <<< 1

def PriceScript : Int := 1 <<< 2

def Discounts : Int := 1 <<< 3

def ProductGroup : Int := 1 <<< 4

def TaxCategoryIds : Int := 1 <<< 5

def TierPrices : Int := 1 <<< 6

def Attributes : Int := 1 <<< 7

def DeliveryType : Int := 1 <<< 8

def ProductType : Int := 1 <<< 9

def Download : Int := 1 <<< 10

/-- The members of the enum, in declaration order. -/
def members : List (String × Int) :=
  [("All", All), ("None", None), ("ExternalIds", ExternalIds),
   ("PriceScript", PriceScript), ("Discounts", Discounts),
   ("ProductGroup", ProductGroup), ("TaxCategoryIds", TaxCategoryIds),
   ("TierPrices", TierPrices), ("Attributes", Attributes),
   ("DeliveryType", DeliveryType), ("ProductType", ProductType),
   ("Download", Download)]

end ProductVariantLoadType

namespace ProductGetFlags

def All : Int := 0

def Name : Int := 1 <<< 0

def ShortDescription : Int := 1 <<< 1

def LongDescription : Int := 1 <<< 2

def Sku : Int := 1 <<< 3

def Tags : Int := 1 <<< 4

def SpecAttributes : Int := 1 <<< 5

def ExternalId : Int := 1 <<< 6

/-- The members of the enum, in declaration order. -/
def members : List (String × Int) :=
  [("All", All), ("Name", Name), ("ShortDescription", ShortDescription),
   ("LongDescription", LongDescription), ("Sku", Sku), ("Tags", Tags),
   ("SpecAttributes", SpecAttributes), ("ExternalId", ExternalId)]

end ProductGetFlags

end V1ProductSearch

namespace V1Order

/-! Transcription of `declare enum OrderLoadType` from
src/v1/RunObject/Order.d.ts (lines 396-445). -/

namespace OrderLoadType

def All : Int := Int.lnot 0

def None : Int := 0

def ShippingAddress : Int := 1 <<< 1

def BillingAddress : Int := 1 <<< 2

def CheckoutAttributes : Int := 1 <<< 3

def Department : Int := 1 <<< 4

def OrderLineItems : Int := 1 <<< 5

def ExtraData : Int := 1 <<< 6

/-- The members of the enum, in declaration order. -/
def members : List (String × Int) :=
  [("All", All), ("None", None), ("ShippingAddress", ShippingAddress),
   ("BillingAddress", BillingAddress),
   ("CheckoutAttributes", CheckoutAttributes), ("Department", Department),
   ("OrderLineItems", OrderLineItems), ("ExtraData", ExtraData)]

end OrderLoadType

end V1Order

namespace CtxProductSearch

/-! Transcriptions from src/v1/ContextItems/RunObject/ProductSearch.d.ts. -/

namespace ProductLoadType

def All : Int := Int.lnot 0

def None : Int := 0

def Url : Int := 1 <<< 1

def Categories : Int := 1 <<< 2

def CrossSells : Int := 1 <<< 3

def RelatedProducts : Int := 1 <<< 4

def PrintLocation : Int := 1 <<< 5

def Pictures : Int := 1 <<< 6

def SpecificationAttributes : Int := 1 <<< 7

def Tags : Int := 1 <<< 8

/-- The members of the enum, in declaration order. -/
def members : List (String × Int) :=
  [("All", All), ("None", None), ("Url", Url), ("Categories", Categories),
   ("CrossSells", CrossSells), ("RelatedProducts", RelatedProducts),
   ("PrintLocation", PrintLocation), ("Pictures", Pictures),
   ("SpecificationAttributes", SpecificationAttributes), ("Tags", Tags)]

end ProductLoadType

namespace ProductVariantLoadType

def All : Int := Int.lnot 0

def None : Int := 0

def ExternalIds : Int := 1 <<< 1

def PriceScript : Int := 1 <<< 2

def Discounts : Int := 1 <<< 3

def ProductGroup : Int := 1 <<< 4

def TaxCategoryIds : Int := 1 <<< 5

def TierPrices : Int := 1 <<< 6

def Attributes : Int := 1 <<< 7

def DeliveryType : Int := 1 <<< 8

def ProductType : Int := 1 <<< 9

def Download : Int := 1 <<< 10

/-- The members of the enum, in declaration order. -/
def members : List (String × Int) :=
  [("All", All), ("None", None), ("ExternalIds", ExternalIds),
   ("PriceScript", PriceScript), ("Discounts", Discounts),
   ("ProductGroup", ProductGroup), ("TaxCategoryIds", TaxCategoryIds),
   ("TierPrices", TierPrices), ("Attributes", Attributes),
   ("DeliveryType", DeliveryType), ("ProductType", ProductType),
   ("Download", Download)]

end ProductVariantLoadType

namespace ProductGetFlags

def All : Int := 0

def Name : Int := 1 <<< 0

def ShortDescription : Int := 1 <<< 1

def LongDescription : Int := 1 <<< 2

def Sku : Int := 1 <<< 3

def Tags : Int := 1 <<< 4

def SpecAttributes : Int := 1 <<< 5

def ExternalId : Int := 1 <<< 6

/-- The members of the enum, in declaration order. -/
def members : List (String × Int) :=
  [("All", All), ("Name", Name), ("ShortDescription", ShortDescription),
   ("LongDescription", LongDescription), ("Sku", Sku), ("Tags", Tags),
   ("SpecAttributes", SpecAttributes), ("ExternalId", ExternalId)]

end ProductGetFlags

end CtxProductSearch

namespace CtxFiles

/-! Transcription of `export enum MetaDataToLoad` from
src/v1/ContextItems/RunObject/Files.d.ts (lines 156-251). -/

namespace MetaDataToLoad

def Job : Int := 1 <<< 1

def Customer : Int := Job ||| (1 <<< 2)

def TemplateTexts : Int := Job ||| (1 <<< 13)

def CustomerAttributes : Int := Job ||| (1 <<< 3)

def CheckoutAttributes : Int := Job ||| CustomerAttributes ||| TemplateTexts ||| (1 <<< 4)

def OrderProductVariant : Int := Job ||| (1 <<< 5)

def SpecificationAttributes : Int := Job ||| OrderProductVariant ||| (1 <<< 6)

def Tags : Int := Job ||| OrderProductVariant ||| (1 <<< 7)

def StatusHistory : Int := Job ||| OrderProductVariant ||| (1 <<< 8)

def Attributes : Int := Job ||| OrderProductVariant ||| (1 <<< 9)

def OrderBillingAddress : Int := Job ||| (1 <<< 10)

def OrderShippingAddress : Int := Job ||| (1 <<< 11)

def OrderShippingInfo : Int := Job ||| (1 <<< 12)

def All : Int := Job ||| Customer ||| CustomerAttributes ||| CheckoutAttributes
  ||| OrderProductVariant ||| SpecificationAttributes ||| Tags ||| StatusHistory
  ||| Attributes ||| OrderBillingAddress ||| OrderShippingAddress
  ||| OrderShippingInfo ||| TemplateTexts

/-- The members of the enum, in declaration order. -/
def members : List (String × Int) :=
  [("Job", Job), ("Customer", Customer), ("TemplateTexts", TemplateTexts),
   ("CustomerAttributes", CustomerAttributes),
   ("CheckoutAttributes", CheckoutAttributes),
   ("OrderProductVariant", OrderProductVariant),
   ("SpecificationAttributes", SpecificationAttributes),
   ("Tags", Tags), ("StatusHistory", StatusHistory),
   ("Attributes", Attributes), ("OrderBillingAddress", OrderBillingAddress),
   ("OrderShippingAddress", OrderShippingAddress),
   ("OrderShippingInfo", OrderShippingInfo), ("All", All)]

end MetaDataToLoad

end CtxFiles

theorem natLdiffZero (n : Nat) : Nat.ldiff n 0 = n := by
  apply Nat.eq_of_testBit_eq
  intro k
  simp [Nat.testBit_ldiff]

theorem natZeroLdiff (m : Nat) : Nat.ldiff 0 m = 0 := by
  apply Nat.eq_of_testBit_eq
  intro k
  simp [Nat.testBit_ldiff]

theorem intLnotZeroLand (x : Int) : (Int.lnot 0) &&& x = x := by
  show Int.land (Int.negSucc 0) x = x
  cases x with
  | ofNat n => simp [Int.land, natLdiffZero]
  | negSucc m => simp [Int.land, Nat.zero_or]

theorem intLandLnotZero (x : Int) : x &&& (Int.lnot 0) = x := by
  show Int.land x (Int.negSucc 0) = x
  cases x with
  | ofNat n => simp [Int.land, natLdiffZero]
  | negSucc m => simp [Int.land, Nat.or_zero]

theorem intLandZero (x : Int) : x &&& (0 : Int) = 0 := by
  show Int.land x (Int.ofNat 0) = 0
  cases x with
  | ofNat n => simp [Int.land, Nat.and_zero]
  | negSucc m => simp [Int.land, natZeroLdiff]

theorem intZeroLor (x : Int) : (0 : Int) ||| x = x := by
  show Int.lor (Int.ofNat 0) x = x
  cases x with
  | ofNat n => simp [Int.lor, Nat.zero_or]
  | negSucc m => simp [Int.lor, natLdiffZero]

theorem intLorZero (x : Int) : x ||| (0 : Int) = x := by
  show Int.lor x (Int.ofNat 0) = x
  cases x with
  | ofNat n => simp [Int.lor, Nat.or_zero]
  | negSucc m => simp [Int.lor, natLdiffZero]

theorem intLorSelf (x : Int) : x ||| x = x := by
  show Int.lor x x = x
  cases x with
  | ofNat n => simp [Int.lor, Nat.or_self]
  | negSucc m => simp [Int.lor, Nat.and_self]

/-- C6: with the MetaDataToLoad values as declared, Job evaluates to 2,
Customer to 6 and Tags to 162; Tags contains Job but not Customer;
combining Customer and Tags yields 6 OR 162 = 166, and 166 still contains
Job. -/
theorem metadata_concrete_scenario :
  UnnamedFiles.MetaDataToLoad.Job = 2 ∧
  UnnamedFiles.MetaDataToLoad.Customer = 6 ∧
  UnnamedFiles.MetaDataToLoad.Tags = 162 ∧
  Contains UnnamedFiles.MetaDataToLoad.Tags UnnamedFiles.MetaDataToLoad.Job = true ∧
  Contains UnnamedFiles.MetaDataToLoad.Tags UnnamedFiles.MetaDataToLoad.Customer = false ∧
  Combine [UnnamedFiles.MetaDataToLoad.Customer, UnnamedFiles.MetaDataToLoad.Tags] = 166 ∧
  ((6 : Int) ||| 162) = 166 ∧
  Contains 166 UnnamedFiles.MetaDataToLoad.Job = true := by
  decide

/-- C9: the MetaDataToLoad composites evaluate to OrderBillingAddress = 1026,
OrderShippingAddress = 2050, OrderShippingInfo = 4098 and
CheckoutAttributes = 8218; none of the three Order* flags contains the
OrderProductVariant bit (1 shl 5 = 32); and all four evaluated values differ
from the decimal values hand-written in the source comments (1058, 2082,
4130, 8210). -/
theorem metadata_values_differ_from_comments :
  UnnamedFiles.MetaDataToLoad.OrderBillingAddress = 1026 ∧
  UnnamedFiles.MetaDataToLoad.OrderShippingAddress = 2050 ∧
  UnnamedFiles.MetaDataToLoad.OrderShippingInfo = 4098 ∧
  UnnamedFiles.MetaDataToLoad.CheckoutAttributes = 8218 ∧
  (UnnamedFiles.MetaDataToLoad.OrderBillingAddress &&& ((1 : Int) <<< 5)) = 0 ∧
  (UnnamedFiles.MetaDataToLoad.OrderShippingAddress &&& ((1 : Int) <<< 5)) = 0 ∧
  (UnnamedFiles.MetaDataToLoad.OrderShippingInfo &&& ((1 : Int) <<< 5)) = 0 ∧
  UnnamedFiles.MetaDataToLoad.commentOrderBillingAddress = 1058 ∧
  UnnamedFiles.MetaDataToLoad.commentOrderShippingAddress = 2082 ∧
  UnnamedFiles.MetaDataToLoad.commentOrderShippingInfo = 4130 ∧
  UnnamedFiles.MetaDataToLoad.commentCheckoutAttributes = 8210 ∧
  UnnamedFiles.MetaDataToLoad.OrderBillingAddress ≠ UnnamedFiles.MetaDataToLoad.commentOrderBillingAddress ∧
  UnnamedFiles.MetaDataToLoad.OrderShippingAddress ≠ UnnamedFiles.MetaDataToLoad.commentOrderShippingAddress ∧
  UnnamedFiles.MetaDataToLoad.OrderShippingInfo ≠ UnnamedFiles.MetaDataToLoad.commentOrderShippingInfo ∧
  UnnamedFiles.MetaDataToLoad.CheckoutAttributes ≠ UnnamedFiles.MetaDataToLoad.commentCheckoutAttributes := by
  decide

/-- C4: every composite flag of MetaDataToLoad contains each of its declared
dependency flags; in particular CheckoutAttributes contains
CustomerAttributes and TemplateTexts, and Tags contains OrderProductVariant. -/
theorem metadata_composites_contain_dependencies :
  (UnnamedFiles.MetaDataToLoad.composites.all
    (fun c => c.2.1.all (fun d => Contains c.1 d))) = true ∧
  Contains UnnamedFiles.MetaDataToLoad.CheckoutAttributes UnnamedFiles.MetaDataToLoad.CustomerAttributes = true ∧
  Contains UnnamedFiles.MetaDataToLoad.CheckoutAttributes UnnamedFiles.MetaDataToLoad.TemplateTexts = true ∧
  Contains UnnamedFiles.MetaDataToLoad.Tags UnnamedFiles.MetaDataToLoad.OrderProductVariant = true := by
  decide

/-- C7: the flag families declared in both export trees are duplicated with
identical member names and values: ProductLoadType, ProductVariantLoadType
and ProductGetFlags agree between v1/RunObject/ProductSearch.d.ts and
v1/ContextItems/RunObject/ProductSearch.d.ts, and MetaDataToLoad agrees
between the unnamed v1 file and v1/ContextItems/RunObject/Files.d.ts. -/
theorem duplicated_families_identical :
  V1ProductSearch.ProductLoadType.members = CtxProductSearch.ProductLoadType.members ∧
  V1ProductSearch.ProductVariantLoadType.members = CtxProductSearch.ProductVariantLoadType.members ∧
  V1ProductSearch.ProductGetFlags.members = CtxProductSearch.ProductGetFlags.members ∧
  UnnamedFiles.MetaDataToLoad.members = CtxFiles.MetaDataToLoad.members := by
  decide

/-- C3: bit allocation is alias-free.  In ProductLoadType,
ProductVariantLoadType, OrderLoadType and ProductGetFlags every non-sentinel
flag is a single bit and any two distinct ones share no bit; in
MetaDataToLoad the only non-composite flag is the single bit Job, every
composite equals the OR of its declared dependencies plus exactly one fresh
bit disjoint from those dependencies, and the fresh bit indices of all named
flags are pairwise distinct. -/
theorem flag_bit_allocation_alias_free :
  pairwiseDisjoint (nonSentinelValues V1ProductSearch.ProductLoadType.members) = true ∧
  ((nonSentinelValues V1ProductSearch.ProductLoadType.members).all isSingleBit) = true ∧
  pairwiseDisjoint (nonSentinelValues V1ProductSearch.ProductVariantLoadType.members) = true ∧
  ((nonSentinelValues V1ProductSearch.ProductVariantLoadType.members).all isSingleBit) = true ∧
  pairwiseDisjoint (nonSentinelValues V1Order.OrderLoadType.members) = true ∧
  ((nonSentinelValues V1Order.OrderLoadType.members).all isSingleBit) = true ∧
  pairwiseDisjoint (nonSentinelValues V1ProductSearch.ProductGetFlags.members) = true ∧
  ((nonSentinelValues V1ProductSearch.ProductGetFlags.members).all isSingleBit) = true ∧
  isSingleBit UnnamedFiles.MetaDataToLoad.Job = true ∧
  (UnnamedFiles.MetaDataToLoad.composites.all
    (fun c => (c.1 == Combine c.2.1 ||| ((1 : Int) <<< (c.2.2 : Int)))
      && ((((1 : Int) <<< (c.2.2 : Int)) &&& Combine c.2.1) == 0))) = true ∧
  UnnamedFiles.MetaDataToLoad.freshBits.Nodup := by
  decide

/-- C8: Combine is the bitwise OR of any number of flags, so it is
idempotent, its zero-argument application equals None = 0, and None is a
left and right identity for it. -/
theorem combine_idempotent_none_identity :
  (∀ F : Int, Combine [F, F] = F) ∧
  Combine [] = V1ProductSearch.ProductLoadType.None ∧
  (∀ F : Int, Combine [V1ProductSearch.ProductLoadType.None, F] = F) ∧
  (∀ F : Int, Combine [F, V1ProductSearch.ProductLoadType.None] = F) := by
  refine ⟨?_, rfl, ?_, ?_⟩
  · intro F
    show ((0 : Int) ||| F) ||| F = F
    rw [intZeroLor, intLorSelf]
  · intro F
    show (((0 : Int) ||| (0 : Int)) ||| F) = F
    rw [intZeroLor, intZeroLor]
  · intro F
    show (((0 : Int) ||| F) ||| (0 : Int)) = F
    rw [intZeroLor, intLorZero]

/-- C2 counterexample: MetaDataToLoad.All evaluates to 16382, the explicit OR
of the named members, not to the bitwise complement of zero (which is -1),
and the family has no None member; likewise ProductGetFlags.All is 0, not
the complement of zero, and that family also has no None member. -/
theorem all_sentinel_counterexample :
  UnnamedFiles.MetaDataToLoad.All = 16382 ∧
  Int.lnot 0 = -1 ∧
  UnnamedFiles.MetaDataToLoad.All ≠ Int.lnot 0 ∧
  (UnnamedFiles.MetaDataToLoad.members.all (fun p => p.1 != "None")) = true ∧
  V1ProductSearch.ProductGetFlags.All = 0 ∧
  V1ProductSearch.ProductGetFlags.All ≠ Int.lnot 0 ∧
  (V1ProductSearch.ProductGetFlags.members.all (fun p => p.1 != "None")) = true := by
  decide

/-- C2 amended: in ProductLoadType, ProductVariantLoadType and OrderLoadType
the All sentinel equals the bitwise complement of zero and None equals zero;
MetaDataToLoad instead defines All as the explicit OR of its named members
(16382) and has no None member; ProductGetFlags defines All as 0 and has no
None member. -/
theorem all_none_sentinels_amended :
  V1ProductSearch.ProductLoadType.All = Int.lnot 0 ∧
  V1ProductSearch.ProductLoadType.None = 0 ∧
  V1ProductSearch.ProductVariantLoadType.All = Int.lnot 0 ∧
  V1ProductSearch.ProductVariantLoadType.None = 0 ∧
  V1Order.OrderLoadType.All = Int.lnot 0 ∧
  V1Order.OrderLoadType.None = 0 ∧
  UnnamedFiles.MetaDataToLoad.All = Combine (nonSentinelValues UnnamedFiles.MetaDataToLoad.members) ∧
  UnnamedFiles.MetaDataToLoad.All = 16382 ∧
  (UnnamedFiles.MetaDataToLoad.members.all (fun p => p.1 != "None")) = true ∧
  V1ProductSearch.ProductGetFlags.All = Combine [] ∧
  (V1ProductSearch.ProductGetFlags.members.all (fun p => p.1 != "None")) = true := by
  decide

/-- C5 counterexample: in ProductGetFlags the All sentinel (0) does not
contain the named flag Name (1): All AND Name = 0, which differs from Name. -/
theorem all_contains_counterexample :
  Contains V1ProductSearch.ProductGetFlags.All V1ProductSearch.ProductGetFlags.Name = false ∧
  V1ProductSearch.ProductGetFlags.All = 0 ∧
  V1ProductSearch.ProductGetFlags.Name = 1 := by
  decide

/-- C5 amended: in MetaDataToLoad, ProductLoadType, ProductVariantLoadType
and OrderLoadType the All sentinel contains every named flag of the family;
in ProductGetFlags, whose All is 0, the only member that All contains is All
itself. -/
theorem all_contains_named_amended :
  ((namedValues UnnamedFiles.MetaDataToLoad.members).all
    (fun F => Contains UnnamedFiles.MetaDataToLoad.All F)) = true ∧
  ((namedValues V1ProductSearch.ProductLoadType.members).all
    (fun F => Contains V1ProductSearch.ProductLoadType.All F)) = true ∧
  ((namedValues V1ProductSearch.ProductVariantLoadType.members).all
    (fun F => Contains V1ProductSearch.ProductVariantLoadType.All F)) = true ∧
  ((namedValues V1Order.OrderLoadType.members).all
    (fun F => Contains V1Order.OrderLoadType.All F)) = true ∧
  ((V1ProductSearch.ProductGetFlags.members.filter
    (fun p => Contains V1ProductSearch.ProductGetFlags.All p.2)).map Prod.fst = ["All"]) := by
  refine ⟨by decide, ?_, ?_, ?_, by decide⟩
  · simp [namedValues, V1ProductSearch.ProductLoadType.members, Contains,
      V1ProductSearch.ProductLoadType.All, intLnotZeroLand]
  · simp [namedValues, V1ProductSearch.ProductVariantLoadType.members, Contains,
      V1ProductSearch.ProductVariantLoadType.All, intLnotZeroLand]
  · simp [namedValues, V1Order.OrderLoadType.members, Contains,
      V1Order.OrderLoadType.All, intLnotZeroLand]

/-- C1 counterexample: the family ProductLoadType has no nonzero base flag.
Every non-sentinel member fails to be contained in some non-sentinel member
(they are pairwise disjoint single bits), the All sentinel is not contained
in Url, and the only remaining member, None, is zero — a base of zero
asserts nothing about loading the parent identity. -/
theorem base_flag_counterexample :
  ((nonSentinelValues V1ProductSearch.ProductLoadType.members).all
    (fun B => !((nonSentinelValues V1ProductSearch.ProductLoadType.members).all
      (fun F => Contains F B)))) = true ∧
  Contains V1ProductSearch.ProductLoadType.Url V1ProductSearch.ProductLoadType.All = false ∧
  V1ProductSearch.ProductLoadType.None = 0 := by
  refine ⟨by decide, ?_, by decide⟩
  simp only [Contains, V1ProductSearch.ProductLoadType.All, intLandLnotZero]
  decide

/-- C1 amended: only MetaDataToLoad has a universal base flag.  In
MetaDataToLoad the nonzero flag Job is contained in every named flag; in
ProductLoadType, ProductVariantLoadType, OrderLoadType and ProductGetFlags
no nonzero member is contained in every non-sentinel flag, because the
non-sentinel flags are pairwise disjoint single bits — each non-sentinel
candidate fails on another flag, each All sentinel fails on a single flag
(ProductGetFlags.All being zero), and None is zero. -/
theorem base_flag_amended :
  ((nonSentinelValues UnnamedFiles.MetaDataToLoad.members).all
    (fun F => Contains F UnnamedFiles.MetaDataToLoad.Job)) = true ∧
  UnnamedFiles.MetaDataToLoad.Job ≠ 0 ∧
  ((nonSentinelValues V1ProductSearch.ProductLoadType.members).all
    (fun B => !((nonSentinelValues V1ProductSearch.ProductLoadType.members).all
      (fun F => Contains F B)))) = true ∧
  Contains V1ProductSearch.ProductLoadType.Url V1ProductSearch.ProductLoadType.All = false ∧
  V1ProductSearch.ProductLoadType.None = 0 ∧
  ((nonSentinelValues V1ProductSearch.ProductVariantLoadType.members).all
    (fun B => !((nonSentinelValues V1ProductSearch.ProductVariantLoadType.members).all
      (fun F => Contains F B)))) = true ∧
  Contains V1ProductSearch.ProductVariantLoadType.ExternalIds V1ProductSearch.ProductVariantLoadType.All = false ∧
  V1ProductSearch.ProductVariantLoadType.None = 0 ∧
  ((nonSentinelValues V1Order.OrderLoadType.members).all
    (fun B => !((nonSentinelValues V1Order.OrderLoadType.members).all
      (fun F => Contains F B)))) = true ∧
  Contains V1Order.OrderLoadType.ShippingAddress V1Order.OrderLoadType.All = false ∧
  V1Order.OrderLoadType.None = 0 ∧
  ((nonSentinelValues V1ProductSearch.ProductGetFlags.members).all
    (fun B => !((nonSentinelValues V1ProductSearch.ProductGetFlags.members).all
      (fun F => Contains F B)))) = true ∧
  V1ProductSearch.ProductGetFlags.All = 0 := by
  refine ⟨by decide, by decide, by decide, ?_, by decide, by decide, ?_, by decide,
    by decide, ?_, by decide, by decide, by decide⟩
  · simp only [Contains, V1ProductSearch.ProductLoadType.All, intLandLnotZero]
    decide
  · simp only [Contains, V1ProductSearch.ProductVariantLoadType.All, intLandLnotZero]
    decide
  · simp only [Contains, V1Order.OrderLoadType.All, intLandLnotZero]
    decide

/-- C10: ProductGetFlags.All is 0 and the family has no None member, so
under the subset test every flag set contains All, while All contains no
named flag other than itself: this All sentinel behaves as the empty set. -/
theorem pgf_all_behaves_as_empty_set :
  V1ProductSearch.ProductGetFlags.All = 0 ∧
  (V1ProductSearch.ProductGetFlags.members.all (fun p => p.1 != "None")) = true ∧
  (∀ S : Int, Contains S V1ProductSearch.ProductGetFlags.All = true) ∧
  (V1ProductSearch.ProductGetFlags.members.all
    (fun p => (p.1 == "All") || (Contains V1ProductSearch.ProductGetFlags.All p.2 == false))) = true := by
  refine ⟨rfl, by decide, ?_, by decide⟩
  intro S
  simp [Contains, V1ProductSearch.ProductGetFlags.All, intLandZero]
